import Mathlib

/-!
Verification of the NoteEase note-taking client (src/notes_frontend/src/App.js).

The component state and its event handlers are embedded as pure Lean
functions.  React state updates become explicit state passing; the
`useEffect` at App.js lines 43-52 (selection defaulting / empty-store
cleanup) runs after every handler, so each user-level command is the
handler followed by one application of that effect.  JavaScript string
truthiness, `String.prototype.trim`, `Date.now().toString()`,
`JSON.stringify` / `JSON.parse` on the persisted notes array, and the
`localStorage` key are all modelled executably below.
-/

/-- Whitespace recognised by JavaScript `String.prototype.trim`:
ECMAScript WhiteSpace (TAB, VT, FF, SP, NBSP, BOM and the Unicode
space separators) together with the line terminators LF, CR, LS, PS. -/
def jsWhitespace (c : Char) : Bool :=
  c.toNat = 9 || c.toNat = 10 || c.toNat = 11 || c.toNat = 12 || c.toNat = 13 ||
  c.toNat = 32 || c.toNat = 160 || c.toNat = 5760 ||
  (8192 ≤ c.toNat && c.toNat ≤ 8202) ||
  c.toNat = 8232 || c.toNat = 8233 || c.toNat = 8239 || c.toNat = 8287 ||
  c.toNat = 12288 || c.toNat = 65279

/-- Drop leading JavaScript whitespace from a character list. -/
def dropWS : List Char → List Char
  | [] => []
  | c :: t => if jsWhitespace c then dropWS t else c :: t

/-- Trim JavaScript whitespace from both ends of a character list. -/
def trimList (l : List Char) : List Char :=
  (dropWS (dropWS l).reverse).reverse

/-- Model of JavaScript `String.prototype.trim` (App.js lines 107-108). -/
def jsTrim (s : String) : String :=
  String.mk (trimList s.data)

/-- JavaScript truthiness of the nullable string `selectedId`:
`null` and the empty string are falsy, every other string is truthy. -/
def truthy : Option String → Bool
  | none => false
  | some s => !(s = "")

/-- Decimal digit character, `48 + n` is the code of the digit `n`. -/
def digitChar (n : Nat) : Char :=
  Char.ofNat (48 + n)

/-- Fuel-indexed decimal rendering of a natural number, most significant
digit first.  The fuel only serves totality; `natToString` always
supplies enough. -/
def natToStringAux : Nat → Nat → List Char
  | 0, _ => []
  | fuel + 1, n =>
    if n < 10 then [digitChar n]
    else natToStringAux fuel (n / 10) ++ [digitChar (n % 10)]

/-- Model of JavaScript `Date.now().toString()` (App.js line 127): the
current millisecond clock rendered in decimal. -/
def natToString (n : Nat) : String :=
  String.mk (natToStringAux (n + 1) n)

/-- Modelled from the spec: `Date.prototype.toISOString` (App.js lines
120 and 133) renders the current time as a timestamp string.  No claim
inspects the format, only that it is a string determined by the clock,
so the rendering is the decimal millisecond count. -/
def isoString (now : Nat) : String :=
  natToString now

/-- A persisted note record: `\x7b id, title, content, lastEdited \x7d`
(App.js line 14). -/
structure Note where
  id : String
  title : String
  content : String
  lastEdited : String
deriving DecidableEq

/-- The placeholder title used when the trimmed title is blank. -/
def untitled : String :=
  "(Untitled)"

/-- The note constructed by the create branch of `handleSaveNote`
(App.js lines 127-134). -/
def mkNote (now : Nat) (t c : String) : Note :=
  { id := natToString now
    title := if jsTrim t = "" then untitled else jsTrim t
    content := jsTrim c
    lastEdited := isoString now }

/-- The in-place replacement performed by the edit branch of
`handleSaveNote` (App.js lines 116-121); `tt` and `tc` are the already
trimmed title and content. -/
def updNote (now : Nat) (tt tc : String) (n : Note) : Note :=
  { n with
    title := if tt = "" then untitled else tt
    content := tc
    lastEdited := isoString now }

/-- The component state of `App` relevant to the note store and the
view-state controller: `notes`, `selectedId`, `isCreating` and the
edit buffer `editNote` (App.js lines 15-21). -/
structure AppState where
  notes : List Note
  selectedId : Option String
  isCreating : Bool
  editTitle : String
  editContent : String
deriving DecidableEq

/-- The `useEffect` of App.js lines 43-52: select the most recent note
when nothing is selected and notes exist; when the store is empty,
clear selection, creating flag and edit buffer. -/
def applyEffect (s : AppState) : AppState :=
  let s1 :=
    match s.notes with
    | [] => s
    | n :: _ => if truthy s.selectedId then s else { s with selectedId := some n.id }
  match s.notes with
  | [] =>
    { s1 with selectedId := none, isCreating := false, editTitle := "", editContent := "" }
  | _ :: _ => s1

/-- `handleAddNote` (App.js lines 69-74): enter creating mode with a
cleared buffer and no selection. -/
def handleAddNote (s : AppState) : AppState :=
  { s with isCreating := true, editTitle := "", editContent := "", selectedId := none }

/-- `handleSelectNote` (App.js lines 77-81). -/
def handleSelectNote (s : AppState) (noteId : String) : AppState :=
  { s with selectedId := some noteId, isCreating := false, editTitle := "", editContent := "" }

/-- `handleDeleteNote` (App.js lines 95-102): filter out the id, repair
the selection if the deleted id was selected, clear the creating flag.
The edit buffer is left untouched by this handler. -/
def handleDeleteNote (s : AppState) (idToDelete : String) : AppState :=
  let updated := s.notes.filter (fun n => n.id != idToDelete)
  let sel :=
    if s.selectedId = some idToDelete then
      match updated with
      | [] => none
      | n :: _ => some n.id
    else s.selectedId
  { s with notes := updated, selectedId := sel, isCreating := false }

/-- `handleSaveNote` (App.js lines 105-141): reject when title and
content are both blank after trimming; otherwise update the selected
note in place (when a note is selected and not creating) or prepend a
newly created note and select it. -/
def handleSaveNote (s : AppState) (now : Nat) : AppState :=
  let tt := jsTrim s.editTitle
  let tc := jsTrim s.editContent
  if tt = "" ∧ tc = "" then s
  else if truthy s.selectedId && !s.isCreating then
    { s with
      notes := s.notes.map (fun n => if s.selectedId = some n.id then updNote now tt tc n else n)
      editTitle := "", editContent := "" }
  else
    { s with
      notes := mkNote now s.editTitle s.editContent :: s.notes
      selectedId := some (natToString now)
      isCreating := false
      editTitle := "", editContent := "" }

/-- Typing into the form fields (`handleFieldChange`, App.js lines
144-146): the edit buffer holds the typed draft. -/
def setBuffer (s : AppState) (t c : String) : AppState :=
  { s with editTitle := t, editContent := c }

/-- The delete command as observed by the user: the handler followed by
the selection/cleanup effect. -/
def deleteCmd (s : AppState) (idToDelete : String) : AppState :=
  applyEffect (handleDeleteNote s idToDelete)

/-- The save command as observed by the user: the handler followed by
the selection/cleanup effect. -/
def saveCmd (s : AppState) (now : Nat) : AppState :=
  applyEffect (handleSaveNote s now)

/-- One complete add interaction: press the add button, let the effect
settle, type title and content, save at clock value `now`. -/
def addCall (s : AppState) (t c : String) (now : Nat) : AppState :=
  saveCmd (setBuffer (applyEffect (handleAddNote s)) t c) now

/-- The component state before any note exists. -/
def initState : AppState :=
  { notes := [], selectedId := none, isCreating := false, editTitle := "", editContent := "" }

/-- A sequence of add interactions starting from the empty collection;
each list entry is the typed title, the typed content and the clock
value `Date.now()` at the save. -/
def addSeq (calls : List (String × String × Nat)) : AppState :=
  calls.foldl (fun s c => addCall s c.1 c.2.1 c.2.2) initState

/-- Unicode 14.0 simple lowercase mappings as compressed runs
`(lo, hi, step, delta)`: every code point `n` with `lo ≤ n ≤ hi` and
`(n - lo) % step = 0` lowercases to `n + delta`.  Together with the
`U+0130` expansion and the Final_Sigma rule below this is the full
default case conversion performed by `String.prototype.toLowerCase`. -/
def lowerDeltaTable : List (Nat × Nat × Nat × Int) :=
  [(65, 90, 1, 32), (192, 214, 1, 32), (216, 222, 1, 32), (256, 302, 2, 1), (306, 310, 2, 1), (313, 327, 2, 1),
   (330, 374, 2, 1), (376, 376, 1, -121), (377, 381, 2, 1), (385, 385, 1, 210), (386, 388, 2, 1), (390, 390, 1, 206),
   (391, 391, 1, 1), (393, 394, 1, 205), (395, 395, 1, 1), (398, 398, 1, 79), (399, 399, 1, 202), (400, 400, 1, 203),
   (401, 401, 1, 1), (403, 403, 1, 205), (404, 404, 1, 207), (406, 406, 1, 211), (407, 407, 1, 209), (408, 408, 1, 1),
   (412, 412, 1, 211), (413, 413, 1, 213), (415, 415, 1, 214), (416, 420, 2, 1), (422, 422, 1, 218), (423, 423, 1, 1),
   (425, 425, 1, 218), (428, 428, 1, 1), (430, 430, 1, 218), (431, 431, 1, 1), (433, 434, 1, 217), (435, 437, 2, 1),
   (439, 439, 1, 219), (440, 440, 1, 1), (444, 444, 1, 1), (452, 452, 1, 2), (453, 453, 1, 1), (455, 455, 1, 2),
   (456, 456, 1, 1), (458, 458, 1, 2), (459, 475, 2, 1), (478, 494, 2, 1), (497, 497, 1, 2), (498, 500, 2, 1)] ++
  [(502, 502, 1, -97), (503, 503, 1, -56), (504, 542, 2, 1), (544, 544, 1, -130), (546, 562, 2, 1), (570, 570, 1, 10795),
   (571, 571, 1, 1), (573, 573, 1, -163), (574, 574, 1, 10792), (577, 577, 1, 1), (579, 579, 1, -195), (580, 580, 1, 69),
   (581, 581, 1, 71), (582, 590, 2, 1), (880, 882, 2, 1), (886, 886, 1, 1), (895, 895, 1, 116), (902, 902, 1, 38),
   (904, 906, 1, 37), (908, 908, 1, 64), (910, 911, 1, 63), (913, 929, 1, 32), (931, 939, 1, 32), (975, 975, 1, 8),
   (984, 1006, 2, 1), (1012, 1012, 1, -60), (1015, 1015, 1, 1), (1017, 1017, 1, -7), (1018, 1018, 1, 1), (1021, 1023, 1, -130),
   (1024, 1039, 1, 80), (1040, 1071, 1, 32), (1120, 1152, 2, 1), (1162, 1214, 2, 1), (1216, 1216, 1, 15), (1217, 1229, 2, 1),
   (1232, 1326, 2, 1), (1329, 1366, 1, 48), (4256, 4293, 1, 7264), (4295, 4295, 1, 7264), (4301, 4301, 1, 7264), (5024, 5103, 1, 38864),
   (5104, 5109, 1, 8), (7312, 7354, 1, -3008), (7357, 7359, 1, -3008), (7680, 7828, 2, 1), (7838, 7838, 1, -7615), (7840, 7934, 2, 1)] ++
  [(7944, 7951, 1, -8), (7960, 7965, 1, -8), (7976, 7983, 1, -8), (7992, 7999, 1, -8), (8008, 8013, 1, -8), (8025, 8031, 2, -8),
   (8040, 8047, 1, -8), (8072, 8079, 1, -8), (8088, 8095, 1, -8), (8104, 8111, 1, -8), (8120, 8121, 1, -8), (8122, 8123, 1, -74),
   (8124, 8124, 1, -9), (8136, 8139, 1, -86), (8140, 8140, 1, -9), (8152, 8153, 1, -8), (8154, 8155, 1, -100), (8168, 8169, 1, -8),
   (8170, 8171, 1, -112), (8172, 8172, 1, -7), (8184, 8185, 1, -128), (8186, 8187, 1, -126), (8188, 8188, 1, -9), (8486, 8486, 1, -7517),
   (8490, 8490, 1, -8383), (8491, 8491, 1, -8262), (8498, 8498, 1, 28), (8544, 8559, 1, 16), (8579, 8579, 1, 1), (9398, 9423, 1, 26),
   (11264, 11311, 1, 48), (11360, 11360, 1, 1), (11362, 11362, 1, -10743), (11363, 11363, 1, -3814), (11364, 11364, 1, -10727), (11367, 11371, 2, 1),
   (11373, 11373, 1, -10780), (11374, 11374, 1, -10749), (11375, 11375, 1, -10783), (11376, 11376, 1, -10782), (11378, 11378, 1, 1), (11381, 11381, 1, 1),
   (11390, 11391, 1, -10815), (11392, 11490, 2, 1), (11499, 11501, 2, 1), (11506, 11506, 1, 1), (42560, 42604, 2, 1), (42624, 42650, 2, 1)] ++
  [(42786, 42798, 2, 1), (42802, 42862, 2, 1), (42873, 42875, 2, 1), (42877, 42877, 1, -35332), (42878, 42886, 2, 1), (42891, 42891, 1, 1),
   (42893, 42893, 1, -42280), (42896, 42898, 2, 1), (42902, 42920, 2, 1), (42922, 42922, 1, -42308), (42923, 42923, 1, -42319), (42924, 42924, 1, -42315),
   (42925, 42925, 1, -42305), (42926, 42926, 1, -42308), (42928, 42928, 1, -42258), (42929, 42929, 1, -42282), (42930, 42930, 1, -42261), (42931, 42931, 1, 928),
   (42932, 42946, 2, 1), (42948, 42948, 1, -48), (42949, 42949, 1, -42307), (42950, 42950, 1, -35384), (42951, 42953, 2, 1), (42960, 42960, 1, 1),
   (42966, 42968, 2, 1), (42997, 42997, 1, 1), (65313, 65338, 1, 32), (66560, 66599, 1, 40), (66736, 66771, 1, 40), (66928, 66938, 1, 39),
   (66940, 66954, 1, 39), (66956, 66962, 1, 39), (66964, 66965, 1, 39), (68736, 68786, 1, 64), (71840, 71871, 1, 32), (93760, 93791, 1, 32),
   (125184, 125217, 1, 34)]

/-- Unicode 14.0 `Cased` code points as inclusive ranges, used by the
Final_Sigma context condition of the default case conversion. -/
def casedTable : List (Nat × Nat) :=
  [(65, 90), (97, 122), (170, 170), (181, 181), (186, 186), (192, 214),
   (216, 246), (248, 442), (444, 447), (452, 659), (661, 687), (880, 883),
   (886, 887), (891, 893), (895, 895), (902, 902), (904, 906), (908, 908),
   (910, 929), (931, 1013), (1015, 1153), (1162, 1327), (1329, 1366), (1376, 1416),
   (4256, 4293), (4295, 4295), (4301, 4301), (4304, 4346), (4349, 4351), (5024, 5109),
   (5112, 5117), (7296, 7304), (7312, 7354), (7357, 7359), (7424, 7467), (7531, 7543),
   (7545, 7578), (7680, 7957), (7960, 7965), (7968, 8005), (8008, 8013), (8016, 8023),
   (8025, 8025), (8027, 8027), (8029, 8029), (8031, 8061), (8064, 8116), (8118, 8124),
   (8126, 8126), (8130, 8132), (8134, 8140), (8144, 8147), (8150, 8155), (8160, 8172),
   (8178, 8180), (8182, 8188), (8450, 8450), (8455, 8455), (8458, 8467), (8469, 8469)] ++
  [(8473, 8477), (8484, 8484), (8486, 8486), (8488, 8488), (8490, 8493), (8495, 8500),
   (8505, 8505), (8508, 8511), (8517, 8521), (8526, 8526), (8544, 8575), (8579, 8580),
   (9398, 9449), (11264, 11387), (11390, 11492), (11499, 11502), (11506, 11507), (11520, 11557),
   (11559, 11559), (11565, 11565), (42560, 42605), (42624, 42651), (42786, 42863), (42865, 42887),
   (42891, 42894), (42896, 42954), (42960, 42961), (42963, 42963), (42965, 42969), (42997, 42998),
   (43002, 43002), (43824, 43866), (43872, 43880), (43888, 43967), (64256, 64262), (64275, 64279),
   (65313, 65338), (65345, 65370), (66560, 66639), (66736, 66771), (66776, 66811), (66928, 66938),
   (66940, 66954), (66956, 66962), (66964, 66965), (66967, 66977), (66979, 66993), (66995, 67001),
   (67003, 67004), (68736, 68786), (68800, 68850), (71840, 71903), (93760, 93823), (119808, 119892),
   (119894, 119964), (119966, 119967), (119970, 119970), (119973, 119974), (119977, 119980), (119982, 119993)] ++
  [(119995, 119995), (119997, 120003), (120005, 120069), (120071, 120074), (120077, 120084), (120086, 120092),
   (120094, 120121), (120123, 120126), (120128, 120132), (120134, 120134), (120138, 120144), (120146, 120485),
   (120488, 120512), (120514, 120538), (120540, 120570), (120572, 120596), (120598, 120628), (120630, 120654),
   (120656, 120686), (120688, 120712), (120714, 120744), (120746, 120770), (120772, 120779), (122624, 122633),
   (122635, 122654), (125184, 125251), (127280, 127305), (127312, 127337), (127344, 127369)]

/-- Unicode 14.0 `Case_Ignorable` code points as inclusive ranges,
used by the Final_Sigma context condition of the default case
conversion. -/
def caseIgnorableTable : List (Nat × Nat) :=
  [(39, 39), (46, 46), (58, 58), (94, 94), (96, 96), (168, 168),
   (173, 173), (175, 175), (180, 180), (183, 184), (688, 879), (884, 885),
   (890, 890), (900, 901), (903, 903), (1155, 1161), (1369, 1369), (1375, 1375),
   (1425, 1469), (1471, 1471), (1473, 1474), (1476, 1477), (1479, 1479), (1524, 1524),
   (1536, 1541), (1552, 1562), (1564, 1564), (1600, 1600), (1611, 1631), (1648, 1648),
   (1750, 1757), (1759, 1768), (1770, 1773), (1807, 1807), (1809, 1809), (1840, 1866),
   (1958, 1968), (2027, 2037), (2042, 2042), (2045, 2045), (2070, 2093), (2137, 2139),
   (2184, 2184), (2192, 2193), (2200, 2207), (2249, 2306), (2362, 2362), (2364, 2364),
   (2369, 2376), (2381, 2381), (2385, 2391), (2402, 2403), (2417, 2417), (2433, 2433),
   (2492, 2492), (2497, 2500), (2509, 2509), (2530, 2531), (2558, 2558), (2561, 2562)] ++
  [(2620, 2620), (2625, 2626), (2631, 2632), (2635, 2637), (2641, 2641), (2672, 2673),
   (2677, 2677), (2689, 2690), (2748, 2748), (2753, 2757), (2759, 2760), (2765, 2765),
   (2786, 2787), (2810, 2815), (2817, 2817), (2876, 2876), (2879, 2879), (2881, 2884),
   (2893, 2893), (2901, 2902), (2914, 2915), (2946, 2946), (3008, 3008), (3021, 3021),
   (3072, 3072), (3076, 3076), (3132, 3132), (3134, 3136), (3142, 3144), (3146, 3149),
   (3157, 3158), (3170, 3171), (3201, 3201), (3260, 3260), (3263, 3263), (3270, 3270),
   (3276, 3277), (3298, 3299), (3328, 3329), (3387, 3388), (3393, 3396), (3405, 3405),
   (3426, 3427), (3457, 3457), (3530, 3530), (3538, 3540), (3542, 3542), (3633, 3633),
   (3636, 3642), (3654, 3662), (3761, 3761), (3764, 3772), (3782, 3782), (3784, 3789),
   (3864, 3865), (3893, 3893), (3895, 3895), (3897, 3897), (3953, 3966), (3968, 3972)] ++
  [(3974, 3975), (3981, 3991), (3993, 4028), (4038, 4038), (4141, 4144), (4146, 4151),
   (4153, 4154), (4157, 4158), (4184, 4185), (4190, 4192), (4209, 4212), (4226, 4226),
   (4229, 4230), (4237, 4237), (4253, 4253), (4348, 4348), (4957, 4959), (5906, 5908),
   (5938, 5939), (5970, 5971), (6002, 6003), (6068, 6069), (6071, 6077), (6086, 6086),
   (6089, 6099), (6103, 6103), (6109, 6109), (6155, 6159), (6211, 6211), (6277, 6278),
   (6313, 6313), (6432, 6434), (6439, 6440), (6450, 6450), (6457, 6459), (6679, 6680),
   (6683, 6683), (6742, 6742), (6744, 6750), (6752, 6752), (6754, 6754), (6757, 6764),
   (6771, 6780), (6783, 6783), (6823, 6823), (6832, 6862), (6912, 6915), (6964, 6964),
   (6966, 6970), (6972, 6972), (6978, 6978), (7019, 7027), (7040, 7041), (7074, 7077),
   (7080, 7081), (7083, 7085), (7142, 7142), (7144, 7145), (7149, 7149), (7151, 7153)] ++
  [(7212, 7219), (7222, 7223), (7288, 7293), (7376, 7378), (7380, 7392), (7394, 7400),
   (7405, 7405), (7412, 7412), (7416, 7417), (7468, 7530), (7544, 7544), (7579, 7679),
   (8125, 8125), (8127, 8129), (8141, 8143), (8157, 8159), (8173, 8175), (8189, 8190),
   (8203, 8207), (8216, 8217), (8228, 8228), (8231, 8231), (8234, 8238), (8288, 8292),
   (8294, 8303), (8305, 8305), (8319, 8319), (8336, 8348), (8400, 8432), (11388, 11389),
   (11503, 11505), (11631, 11631), (11647, 11647), (11744, 11775), (11823, 11823), (12293, 12293),
   (12330, 12333), (12337, 12341), (12347, 12347), (12441, 12446), (12540, 12542), (40981, 40981),
   (42232, 42237), (42508, 42508), (42607, 42610), (42612, 42621), (42623, 42623), (42652, 42655),
   (42736, 42737), (42752, 42785), (42864, 42864), (42888, 42890), (42994, 42996), (43000, 43001),
   (43010, 43010), (43014, 43014), (43019, 43019), (43045, 43046), (43052, 43052), (43204, 43205)] ++
  [(43232, 43249), (43263, 43263), (43302, 43309), (43335, 43345), (43392, 43394), (43443, 43443),
   (43446, 43449), (43452, 43453), (43471, 43471), (43493, 43494), (43561, 43566), (43569, 43570),
   (43573, 43574), (43587, 43587), (43596, 43596), (43632, 43632), (43644, 43644), (43696, 43696),
   (43698, 43700), (43703, 43704), (43710, 43711), (43713, 43713), (43741, 43741), (43756, 43757),
   (43763, 43764), (43766, 43766), (43867, 43871), (43881, 43883), (44005, 44005), (44008, 44008),
   (44013, 44013), (64286, 64286), (64434, 64450), (65024, 65039), (65043, 65043), (65056, 65071),
   (65106, 65106), (65109, 65109), (65279, 65279), (65287, 65287), (65294, 65294), (65306, 65306),
   (65342, 65342), (65344, 65344), (65392, 65392), (65438, 65439), (65507, 65507), (65529, 65531),
   (66045, 66045), (66272, 66272), (66422, 66426), (67456, 67461), (67463, 67504), (67506, 67514),
   (68097, 68099), (68101, 68102), (68108, 68111), (68152, 68154), (68159, 68159), (68325, 68326)] ++
  [(68900, 68903), (69291, 69292), (69446, 69456), (69506, 69509), (69633, 69633), (69688, 69702),
   (69744, 69744), (69747, 69748), (69759, 69761), (69811, 69814), (69817, 69818), (69821, 69821),
   (69826, 69826), (69837, 69837), (69888, 69890), (69927, 69931), (69933, 69940), (70003, 70003),
   (70016, 70017), (70070, 70078), (70089, 70092), (70095, 70095), (70191, 70193), (70196, 70196),
   (70198, 70199), (70206, 70206), (70367, 70367), (70371, 70378), (70400, 70401), (70459, 70460),
   (70464, 70464), (70502, 70508), (70512, 70516), (70712, 70719), (70722, 70724), (70726, 70726),
   (70750, 70750), (70835, 70840), (70842, 70842), (70847, 70848), (70850, 70851), (71090, 71093),
   (71100, 71101), (71103, 71104), (71132, 71133), (71219, 71226), (71229, 71229), (71231, 71232),
   (71339, 71339), (71341, 71341), (71344, 71349), (71351, 71351), (71453, 71455), (71458, 71461),
   (71463, 71467), (71727, 71735), (71737, 71738), (71995, 71996), (71998, 71998), (72003, 72003)] ++
  [(72148, 72151), (72154, 72155), (72160, 72160), (72193, 72202), (72243, 72248), (72251, 72254),
   (72263, 72263), (72273, 72278), (72281, 72283), (72330, 72342), (72344, 72345), (72752, 72758),
   (72760, 72765), (72767, 72767), (72850, 72871), (72874, 72880), (72882, 72883), (72885, 72886),
   (73009, 73014), (73018, 73018), (73020, 73021), (73023, 73029), (73031, 73031), (73104, 73105),
   (73109, 73109), (73111, 73111), (73459, 73460), (78896, 78904), (92912, 92916), (92976, 92982),
   (92992, 92995), (94031, 94031), (94095, 94111), (94176, 94177), (94179, 94180), (110576, 110579),
   (110581, 110587), (110589, 110590), (113821, 113822), (113824, 113827), (118528, 118573), (118576, 118598),
   (119143, 119145), (119155, 119170), (119173, 119179), (119210, 119213), (119362, 119364), (121344, 121398),
   (121403, 121452), (121461, 121461), (121476, 121476), (121499, 121503), (121505, 121519), (122880, 122886),
   (122888, 122904), (122907, 122913), (122915, 122916), (122918, 122922), (123184, 123197), (123566, 123566)] ++
  [(123628, 123631), (125136, 125142), (125252, 125259), (127995, 127999), (917505, 917505), (917536, 917631),
   (917760, 917999)]

/-- Membership of a code point in a list of inclusive ranges; the
ranges are sorted and disjoint, so the scan stops at the first range
starting beyond the code point. -/
def inRanges : List (Nat × Nat) → Nat → Bool
  | [], _ => false
  | r :: rs, n => if n < r.1 then false else (decide (n ≤ r.2) || inRanges rs n)

/-- The Unicode `Cased` property of a code point. -/
def isCased (n : Nat) : Bool :=
  inRanges casedTable n

/-- The Unicode `Case_Ignorable` property of a code point. -/
def isCaseIgnorable (n : Nat) : Bool :=
  inRanges caseIgnorableTable n

/-- Lookup of a code point in the mapping runs; the runs are sorted
and disjoint, so the scan stops at the first run starting beyond the
code point. -/
def lowerLookup : List (Nat × Nat × Nat × Int) → Nat → Option Int
  | [], _ => none
  | e :: es, n =>
    if n < e.1 then none
    else if decide (n ≤ e.2.1) && decide ((n - e.1) % e.2.2.1 = 0) then some e.2.2.2
    else lowerLookup es n

/-- Simple (single code point) lowercase mapping of a code point;
code points carrying no mapping are unchanged. -/
def lowerSimpleNat (n : Nat) : Nat :=
  match lowerLookup lowerDeltaTable n with
  | some d => ((n : Int) + d).toNat
  | none => n

/-- The After condition of the Final_Sigma context rule: skipping
case-ignorable characters, the next character is cased. -/
def followedByCased : List Char → Bool
  | [] => false
  | c :: t => if isCaseIgnorable c.toNat then followedByCased t else isCased c.toNat

/-- Unicode default case conversion to lowercase over a character
list.  `prevCased` carries the Before condition of Final_Sigma: the
last non-case-ignorable character seen so far was cased.  A capital
sigma (U+03A3) in final position (preceded by a cased character, not
followed by one, ignoring case-ignorables) becomes final sigma
U+03C2; U+0130 expands to `i` followed by combining dot above; every
other character takes its simple lowercase mapping. -/
def jsLowerAux : Bool → List Char → List Char
  | _, [] => []
  | prevCased, c :: t =>
    let n := c.toNat
    let mapped :=
      if n = 304 then [Char.ofNat 105, Char.ofNat 775]
      else if decide (n = 931) && prevCased && !(followedByCased t) then [Char.ofNat 962]
      else [Char.ofNat (lowerSimpleNat n)]
    let nextCased := if isCaseIgnorable n then prevCased else isCased n
    mapped ++ jsLowerAux nextCased t

/-- Model of JavaScript `String.prototype.toLowerCase` (App.js lines
58-59): the Unicode 14.0 default case conversion — the simple
lowercase mappings, the `U+0130` expansion, and the Final_Sigma
context rule — applied to the string's characters. -/
def lowerData (s : String) : List Char :=
  jsLowerAux false s.data

/-- Containment of `sub` in `hay` as a contiguous substring, the model
of JavaScript `String.prototype.includes`. -/
def containsSub (hay sub : List Char) : Bool :=
  sub.isPrefixOf hay ||
    match hay with
    | [] => false
    | _ :: t => containsSub t sub

/-- The search predicate of the sidebar filter (App.js lines 57-59):
title or content contains the query, case-insensitively. -/
def matchesQuery (search : String) (n : Note) : Bool :=
  containsSub (lowerData n.title) (lowerData search) ||
    containsSub (lowerData n.content) (lowerData search)

/-- `filteredNotes` (App.js lines 55-61): the full collection for the
empty query, otherwise the filtered subsequence. -/
def filteredNotes (notes : List Note) (search : String) : List Note :=
  if search = "" then notes else notes.filter (fun n => matchesQuery search n)

/-- The condition under which `MainArea` shows the create/edit form
(App.js line 233): `isCreating or (selectedId and editNote.title is not
empty)`. -/
def showsEditForm (s : AppState) : Bool :=
  s.isCreating || (truthy s.selectedId && !(s.editTitle = ""))

/-- Lowercase hexadecimal digit character, as emitted by
`JSON.stringify` in `\u00XX` escapes. -/
def hexDigitChar (n : Nat) : Char :=
  if n < 10 then Char.ofNat (48 + n) else Char.ofNat (87 + n)

/-- The escape sequence `JSON.stringify` produces for one character of
a string value: `\"`, `\\`, the five short control escapes, `\u00XX`
for the remaining control characters, and the character itself
otherwise. -/
def encodeChar (c : Char) : List Char :=
  if c = '"' then ['\\', '"']
  else if c = '\\' then ['\\', '\\']
  else if c = '\x08' then ['\\', 'b']
  else if c = '\x0c' then ['\\', 'f']
  else if c = '\n' then ['\\', 'n']
  else if c = '\r' then ['\\', 'r']
  else if c = '\t' then ['\\', 't']
  else if c.toNat < 32 then
    ['\\', 'u', '0', '0', hexDigitChar (c.toNat / 16), hexDigitChar (c.toNat % 16)]
  else [c]

/-- A JSON string literal for `s`: quote, escaped body, quote. -/
def encodeString (s : String) : List Char :=
  '"' :: (s.data.map encodeChar).flatten ++ ['"']

/-- The characters `JSON.stringify` emits before the `id` value of a
note record. -/
def litIdKey : List Char :=
  ['\x7b', '"', 'i', 'd', '"', ':']

/-- The characters between the `id` value and the `title` value. -/
def litTitleKey : List Char :=
  [',', '"', 't', 'i', 't', 'l', 'e', '"', ':']

/-- The characters between the `title` value and the `content` value. -/
def litContentKey : List Char :=
  [',', '"', 'c', 'o', 'n', 't', 'e', 'n', 't', '"', ':']

/-- The characters between the `content` value and the `lastEdited`
value. -/
def litLastEditedKey : List Char :=
  [',', '"', 'l', 'a', 's', 't', 'E', 'd', 'i', 't', 'e', 'd', '"', ':']

/-- `JSON.stringify` of one note record: the four string fields in
insertion order `id`, `title`, `content`, `lastEdited` (App.js lines
117-121 and 129-134). -/
def renderNote (n : Note) : List Char :=
  litIdKey ++ encodeString n.id ++
  litTitleKey ++ encodeString n.title ++
  litContentKey ++ encodeString n.content ++
  litLastEditedKey ++ encodeString n.lastEdited ++ ['\x7d']

/-- The comma-separated note records inside the array brackets. -/
def renderNotesInner : List Note → List Char
  | [] => []
  | [n] => renderNote n
  | n :: ns => renderNote n ++ ',' :: renderNotesInner ns

/-- `JSON.stringify(notes)` (App.js line 29): the serialized array of
note records. -/
def renderNotes (notes : List Note) : String :=
  String.mk ('[' :: (renderNotesInner notes ++ [']']))

/-- Value of a hexadecimal digit character, `none` on anything else. -/
def hexVal (c : Char) : Option Nat :=
  if 48 ≤ c.toNat ∧ c.toNat ≤ 57 then some (c.toNat - 48)
  else if 97 ≤ c.toNat ∧ c.toNat ≤ 102 then some (c.toNat - 87)
  else if 65 ≤ c.toNat ∧ c.toNat ≤ 70 then some (c.toNat - 55)
  else none

/-- Decoding of a single-character JSON escape. -/
def decodeEscape (e : Char) : Option Char :=
  if e = '"' then some '"'
  else if e = '\\' then some '\\'
  else if e = '/' then some '/'
  else if e = 'b' then some '\x08'
  else if e = 'f' then some '\x0c'
  else if e = 'n' then some '\n'
  else if e = 'r' then some '\r'
  else if e = 't' then some '\t'
  else none

/-- Body of the JSON string scanner: consume characters until the
closing quote, decoding escapes; `acc` holds the decoded characters in
reverse. -/
def decodeStringAux : List Char → List Char → Option (List Char × List Char)
  | [], _ => none
  | c :: rest, acc =>
    if c = '"' then some (acc.reverse, rest)
    else if c = '\\' then
      match rest with
      | [] => none
      | e :: rest2 =>
        if e = 'u' then
          match rest2 with
          | h1 :: h2 :: h3 :: h4 :: rest3 =>
            match hexVal h1, hexVal h2, hexVal h3, hexVal h4 with
            | some a, some b, some c2, some d =>
              decodeStringAux rest3 (Char.ofNat (((a * 16 + b) * 16 + c2) * 16 + d) :: acc)
            | _, _, _, _ => none
          | _ => none
        else
          match decodeEscape e with
          | some c2 => decodeStringAux rest2 (c2 :: acc)
          | none => none
    else decodeStringAux rest (c :: acc)

/-- Parse a JSON string literal at the head of the input. -/
def parseJString : List Char → Option (String × List Char)
  | '"' :: rest =>
    match decodeStringAux rest [] with
    | some (cs, r) => some (String.mk cs, r)
    | none => none
  | _ => none

/-- Consume an expected literal character sequence. -/
def dropLit : List Char → List Char → Option (List Char)
  | [], input => some input
  | _ :: _, [] => none
  | l :: ls, c :: cs => if c = l then dropLit ls cs else none

/-- Parse one serialized note record at the head of the input. -/
def parseNote (input : List Char) : Option (Note × List Char) := do
  let r1 ← dropLit litIdKey input
  let (idv, r2) ← parseJString r1
  let r3 ← dropLit litTitleKey r2
  let (titlev, r4) ← parseJString r3
  let r5 ← dropLit litContentKey r4
  let (contentv, r6) ← parseJString r5
  let r7 ← dropLit litLastEditedKey r6
  let (lev, r8) ← parseJString r7
  match r8 with
  | '\x7d' :: r9 => some ({ id := idv, title := titlev, content := contentv, lastEdited := lev }, r9)
  | _ => none

/-- Parse the comma-separated note records up to the closing bracket;
the fuel bounds the number of records and only serves totality. -/
def parseItemsAux : Nat → List Char → Option (List Note × List Char)
  | 0, _ => none
  | fuel + 1, input =>
    match parseNote input with
    | none => none
    | some (n, rest) =>
      match rest with
      | ']' :: r => some ([n], r)
      | ',' :: more =>
        match parseItemsAux fuel more with
        | some (ns, r) => some (n :: ns, r)
        | none => none
      | _ => none

/-- Parse of a serialized notes collection.  It accepts exactly the
strings this component itself persists (the persistence format of the
spec, §6); on every other string it returns `none`, which models
`JSON.parse` raising `SyntaxError` or yielding a value that is not a
collection of note records. -/
def parseNotes (s : String) : Option (List Note) :=
  match s.data with
  | '[' :: rest =>
    if rest = [']'] then some []
    else
      match parseItemsAux s.length rest with
      | some (ns, []) => some ns
      | _ => none
  | _ => none

/-- `localStorage.setItem` of the serialized collection (App.js lines
28-30): the durable key holds the rendered string afterwards. -/
def persistNotes (notes : List Note) : Option String :=
  some (renderNotes notes)

/-- The startup read of the durable key (App.js lines 15-18):
`saved ? JSON.parse(saved) : []`.  A missing key (and the falsy empty
string) yields the empty collection; otherwise the value is parsed,
and a parse failure is the uncaught `SyntaxError` propagating to the
caller, modelled as `Except.error`. -/
def loadNotes (saved : Option String) : Except Unit (List Note) :=
  match saved with
  | none => Except.ok []
  | some s =>
    if s = "" then Except.ok []
    else
      match parseNotes s with
      | some notes => Except.ok notes
      | none => Except.error ()

/-- Collections reachable from the empty collection through the save
command (create or in-place update, from an arbitrary surrounding view
state) and the delete command. -/
inductive ReachableNotes : List Note → Prop where
  | nil : ReachableNotes []
  | save (s : AppState) (now : Nat) :
      ReachableNotes s.notes → ReachableNotes (handleSaveNote s now).notes
  | del (s : AppState) (idToDelete : String) :
      ReachableNotes s.notes → ReachableNotes (handleDeleteNote s idToDelete).notes

/-- A state in which note B (id 2, newest, listed first) is selected
while an edit of it is in progress and note A (id 1) also exists. -/
def editingTwoNotes : AppState :=
  { notes :=
      [{ id := "2", title := "B", content := "b", lastEdited := "2" },
       { id := "1", title := "A", content := "a", lastEdited := "1" }]
    selectedId := some "2"
    isCreating := false
    editTitle := "Groceries"
    editContent := "Milk" }

/-- A state holding a single note that is being edited. -/
def editingLastNote : AppState :=
  { notes := [{ id := "1", title := "A", content := "a", lastEdited := "1" }]
    selectedId := some "1"
    isCreating := false
    editTitle := "Draft"
    editContent := "d" }

/-- A state whose edit buffer is blank up to whitespace. -/
def blankBufferState : AppState :=
  { notes := [{ id := "1", title := "A", content := "a", lastEdited := "1" }]
    selectedId := some "1"
    isCreating := false
    editTitle := "   "
    editContent := "" }

/-- A creating-mode state with a typed draft. -/
def creatingState : AppState :=
  { notes := [{ id := "1", title := "A", content := "a", lastEdited := "1" }]
    selectedId := none
    isCreating := true
    editTitle := "  Groceries "
    editContent := " Milk, eggs " }

/-- Two notes used to exercise the sidebar filter. -/
def searchNotes : List Note :=
  [{ id := "2", title := "Groceries", content := "Milk", lastEdited := "2" },
   { id := "1", title := "Work", content := "email", lastEdited := "1" }]

/-- The state of `editingTwoNotes` with no edit in progress (plain
viewing of note B). -/
def viewingTwoNotes : AppState :=
  { notes :=
      [{ id := "2", title := "B", content := "b", lastEdited := "2" },
       { id := "1", title := "A", content := "a", lastEdited := "1" }]
    selectedId := some "2"
    isCreating := false
    editTitle := ""
    editContent := "" }

/-- Creating mode reached from the empty collection, with a typed
draft title. -/
def creatingFromEmpty : AppState :=
  { notes := [], selectedId := none, isCreating := true, editTitle := "hi", editContent := "" }

/-- Decimal value of a digit character list, most significant first;
the left inverse used to show decimal rendering is injective. -/
def digitsVal (l : List Char) : Nat :=
  l.foldl (fun a c => 10 * a + (c.toNat - 48)) 0

/-!  ## Helper lemmas  -/

theorem dropWS_cons_of_not_ws {c : Char} (t : List Char) (h : jsWhitespace c = false) :
    dropWS (c :: t) = c :: t := by
  simp [dropWS, h]

theorem dropWS_shape (l : List Char) :
    dropWS l = [] ∨ ∃ c t, dropWS l = c :: t ∧ jsWhitespace c = false := by
  induction l with
  | nil => exact Or.inl rfl
  | cons c t ih =>
    by_cases h : jsWhitespace c
    · simpa [dropWS, h] using ih
    · exact Or.inr ⟨c, t, by simp [dropWS, h], by simpa using h⟩

theorem dropWS_idem (l : List Char) : dropWS (dropWS l) = dropWS l := by
  rcases dropWS_shape l with h | ⟨c, t, h, hc⟩
  · rw [h]; rfl
  · rw [h]; exact dropWS_cons_of_not_ws t hc

theorem dropWS_decomp (l : List Char) : ∃ p, l = p ++ dropWS l := by
  induction l with
  | nil => exact ⟨[], rfl⟩
  | cons c t ih =>
    by_cases h : jsWhitespace c
    · rcases ih with ⟨p, hp⟩
      exact ⟨c :: p, by simp [dropWS, h]; exact hp⟩
    · exact ⟨[], by simp [dropWS, h]⟩

theorem trimList_idem (l : List Char) : trimList (trimList l) = trimList l := by
  have hBrev : (trimList l).reverse = dropWS (dropWS l).reverse := by
    simp [trimList]
  have hfix : dropWS (trimList l) = trimList l := by
    rcases dropWS_shape (dropWS l).reverse with h | ⟨d, u, hdu, _⟩
    · have : trimList l = [] := by simp [trimList, h]
      rw [this]; rfl
    · have hBne : trimList l ≠ [] := by
        simp [trimList, hdu]
      rcases dropWS_decomp (dropWS l).reverse with ⟨p, hp⟩
      have hA : dropWS l = trimList l ++ p.reverse := by
        have := congrArg List.reverse hp
        simpa [trimList] using this
      rcases dropWS_shape l with h0 | ⟨c, t, h0, hc⟩
      · rw [h0] at hA
        exact absurd (List.append_eq_nil.mp hA.symm).1 hBne
      · rcases List.exists_cons_of_ne_nil hBne with ⟨b, B', hB⟩
        have hcb : c = b := by
          rw [h0, hB] at hA
          exact (List.cons.injEq _ _ _ _ ▸ hA).1
        rw [hB]
        exact dropWS_cons_of_not_ws B' (hcb ▸ hc)
  show (dropWS (dropWS (trimList l)).reverse).reverse = trimList l
  rw [hfix, hBrev, dropWS_idem]
  rfl

theorem jsTrim_idem (s : String) : jsTrim (jsTrim s) = jsTrim s := by
  show String.mk (trimList (trimList s.data)) = String.mk (trimList s.data)
  rw [trimList_idem]

theorem natToStringAux_ne_nil (fuel n : Nat) : natToStringAux (fuel + 1) n ≠ [] := by
  unfold natToStringAux
  split <;> simp

theorem natToString_ne_empty (n : Nat) : natToString n ≠ "" := by
  intro h
  exact natToStringAux_ne_nil n n (congrArg String.data h)

theorem digitChar_toNat {n : Nat} (h : n < 10) : (digitChar n).toNat = 48 + n := by
  have : ∀ m, m < 10 → (digitChar m).toNat = 48 + m := by decide
  exact this n h

theorem digitsVal_append_digit (l : List Char) (c : Char) :
    digitsVal (l ++ [c]) = 10 * digitsVal l + (c.toNat - 48) := by
  simp [digitsVal, List.foldl_append]

theorem digitsVal_natToStringAux :
    ∀ n fuel, n < fuel → digitsVal (natToStringAux fuel n) = n := by
  intro n
  induction n using Nat.strong_induction_on with
  | _ n ih =>
    intro fuel hf
    cases fuel with
    | zero => omega
    | succ f =>
      unfold natToStringAux
      by_cases h10 : n < 10
      · rw [if_pos h10]
        simp [digitsVal, digitChar_toNat h10]
      · rw [if_neg h10]
        have hdiv : n / 10 < n := Nat.div_lt_self (by omega) (by omega)
        rw [digitsVal_append_digit, ih (n / 10) hdiv f (by omega),
          digitChar_toNat (Nat.mod_lt n (by omega))]
        omega

theorem natToString_injective : Function.Injective natToString := by
  intro m n h
  have hd : natToStringAux (m + 1) m = natToStringAux (n + 1) n := congrArg String.data h
  have hm := digitsVal_natToStringAux m (m + 1) (by omega)
  have hn := digitsVal_natToStringAux n (n + 1) (by omega)
  rw [hd, hn] at hm
  exact hm.symm

theorem applyEffect_notes (s : AppState) : (applyEffect s).notes = s.notes := by
  unfold applyEffect
  cases hn : s.notes with
  | nil => simp [hn]
  | cons a t => by_cases h : truthy s.selectedId <;> simp [h, hn]

theorem char_toNat_inj {c1 c2 : Char} (h : c1.toNat = c2.toNat) : c1 = c2 :=
  Char.ext (UInt32.ext h)

theorem charOfNat_toNat_small {n : Nat} (h : n < 128) : (Char.ofNat n).toNat = n := by
  have : ∀ m, m < 128 → (Char.ofNat m).toNat = m := by decide
  exact this n h

theorem char_ofNat_toNat_small {c : Char} (h : c.toNat < 128) : Char.ofNat c.toNat = c :=
  char_toNat_inj (charOfNat_toNat_small h)

theorem hexVal_hexDigitChar {n : Nat} (h : n < 16) : hexVal (hexDigitChar n) = some n := by
  have : ∀ m, m < 16 → hexVal (hexDigitChar m) = some m := by decide
  exact this n h

theorem decodeStringAux_close (acc rest : List Char) :
    decodeStringAux ('"' :: rest) acc = some (acc.reverse, rest) := by
  rw [decodeStringAux.eq_def]; simp

theorem decodeStringAux_plain {c : Char} (h1 : ¬ c = '"') (h2 : ¬ c = '\\')
    (tail acc : List Char) :
    decodeStringAux (c :: tail) acc = decodeStringAux tail (c :: acc) := by
  rw [decodeStringAux.eq_def]; simp [h1, h2]

theorem decodeStringAux_escape {e c2 : Char} (he : decodeEscape e = some c2) (hu : ¬ e = 'u')
    (tail acc : List Char) :
    decodeStringAux ('\\' :: e :: tail) acc = decodeStringAux tail (c2 :: acc) := by
  rw [decodeStringAux.eq_def]; simp [hu, he]

theorem decodeStringAux_unicode {a b : Nat} (ha : a < 16) (hb : b < 16)
    (tail acc : List Char) :
    decodeStringAux ('\\' :: 'u' :: '0' :: '0' :: hexDigitChar a :: hexDigitChar b :: tail) acc =
      decodeStringAux tail (Char.ofNat (a * 16 + b) :: acc) := by
  rw [decodeStringAux.eq_def]
  simp [hexVal_hexDigitChar ha, hexVal_hexDigitChar hb, show hexVal '0' = some 0 from rfl]

theorem decode_encodeChar (c : Char) (tail acc : List Char) :
    decodeStringAux (encodeChar c ++ tail) acc = decodeStringAux tail (c :: acc) := by
  by_cases h1 : c = '"'
  · subst h1
    exact @decodeStringAux_escape '"' '"' rfl (by decide) tail acc
  · by_cases h2 : c = '\\'
    · subst h2
      exact @decodeStringAux_escape '\\' '\\' rfl (by decide) tail acc
    · by_cases h3 : c = '\x08'
      · subst h3
        exact @decodeStringAux_escape 'b' '\x08' rfl (by decide) tail acc
      · by_cases h4 : c = '\x0c'
        · subst h4
          exact @decodeStringAux_escape 'f' '\x0c' rfl (by decide) tail acc
        · by_cases h5 : c = '\n'
          · subst h5
            exact @decodeStringAux_escape 'n' '\n' rfl (by decide) tail acc
          · by_cases h6 : c = '\r'
            · subst h6
              exact @decodeStringAux_escape 'r' '\r' rfl (by decide) tail acc
            · by_cases h7 : c = '\t'
              · subst h7
                exact @decodeStringAux_escape 't' '\t' rfl (by decide) tail acc
              · by_cases h8 : c.toNat < 32
                · rw [show encodeChar c =
                        ['\\', 'u', '0', '0', hexDigitChar (c.toNat / 16),
                         hexDigitChar (c.toNat % 16)] from by
                      simp [encodeChar, h1, h2, h3, h4, h5, h6, h7, h8]]
                  rw [List.cons_append, List.cons_append, List.cons_append, List.cons_append,
                    List.cons_append, List.cons_append, List.nil_append]
                  rw [decodeStringAux_unicode (by omega) (by omega) tail acc]
                  rw [show c.toNat / 16 * 16 + c.toNat % 16 = c.toNat from by omega]
                  rw [char_ofNat_toNat_small (by omega)]
                · rw [show encodeChar c = [c] from by
                      simp [encodeChar, h1, h2, h3, h4, h5, h6, h7, h8]]
                  exact decodeStringAux_plain h1 h2 tail acc

theorem decodeStringAux_encode (l : List Char) :
    ∀ acc rest, decodeStringAux ((l.map encodeChar).flatten ++ '"' :: rest) acc =
      some (acc.reverse ++ l, rest) := by
  induction l with
  | nil =>
    intro acc rest
    simpa using decodeStringAux_close acc rest
  | cons c t ih =>
    intro acc rest
    rw [List.map_cons, List.flatten_cons, List.append_assoc, decode_encodeChar,
      ih (c :: acc) rest]
    simp

theorem parseJString_encode (s : String) (rest : List Char) :
    parseJString (encodeString s ++ rest) = some (s, rest) := by
  show parseJString ('"' :: ((s.data.map encodeChar).flatten ++ ['"']) ++ rest) = some (s, rest)
  rw [List.cons_append, List.append_assoc]
  show (match decodeStringAux ((s.data.map encodeChar).flatten ++ '"' :: rest) [] with
    | some (cs, r) => some (String.mk cs, r)
    | none => none) = some (s, rest)
  rw [decodeStringAux_encode s.data [] rest]
  rfl

theorem dropLit_append (lit rest : List Char) : dropLit lit (lit ++ rest) = some rest := by
  induction lit with
  | nil => rfl
  | cons c cs ih => simp [dropLit, ih]

theorem parseNote_render (n : Note) (rest : List Char) :
    parseNote (renderNote n ++ rest) = some (n, rest) := by
  simp only [renderNote, List.append_assoc]
  simp only [parseNote, bind, Option.bind, dropLit_append, parseJString_encode,
    List.cons_append, List.nil_append]

theorem parseItemsAux_render :
    ∀ (notes : List Note) (fuel : Nat) (rest : List Char), notes ≠ [] →
      notes.length ≤ fuel →
      parseItemsAux fuel (renderNotesInner notes ++ ']' :: rest) = some (notes, rest) := by
  intro notes
  induction notes with
  | nil => intro fuel rest h _; exact absurd rfl h
  | cons n ns ih =>
    intro fuel rest _ hlen
    cases fuel with
    | zero => simp at hlen
    | succ f =>
      cases hns : ns with
      | nil =>
        show parseItemsAux (f + 1) (renderNote n ++ ']' :: rest) = some ([n], rest)
        simp only [parseItemsAux, parseNote_render]
      | cons m ms =>
        subst hns
        show parseItemsAux (f + 1)
            ((renderNote n ++ ',' :: renderNotesInner (m :: ms)) ++ ']' :: rest) =
          some (n :: m :: ms, rest)
        rw [List.append_assoc, List.cons_append]
        simp only [parseItemsAux, parseNote_render]
        rw [ih f rest (by simp) (by simp at hlen ⊢; omega)]

theorem renderNote_length_pos (n : Note) : 0 < (renderNote n).length := by
  simp [renderNote, litIdKey]

theorem renderNotesInner_length :
    ∀ notes : List Note, notes.length ≤ (renderNotesInner notes).length := by
  intro notes
  induction notes with
  | nil => simp [renderNotesInner]
  | cons n ns ih =>
    cases hns : ns with
    | nil => simpa [renderNotesInner] using renderNote_length_pos n
    | cons m ms =>
      rw [hns] at ih
      have := renderNote_length_pos n
      show (n :: m :: ms).length ≤ (renderNote n ++ ',' :: renderNotesInner (m :: ms)).length
      simp only [List.length_append, List.length_cons] at ih ⊢
      omega

theorem parseNotes_render (notes : List Note) :
    parseNotes (renderNotes notes) = some notes := by
  cases notes with
  | nil => rfl
  | cons n ns =>
    have hshape : ∃ tl, renderNotesInner (n :: ns) = '\x7b' :: tl := by
      cases ns <;> exact ⟨_, rfl⟩
    rcases hshape with ⟨tl, htl⟩
    have hne : renderNotesInner (n :: ns) ++ [']'] ≠ [']'] := by
      rw [htl]; simp
    have hstep : parseNotes (renderNotes (n :: ns)) =
        (match parseItemsAux (renderNotes (n :: ns)).length (renderNotesInner (n :: ns) ++ [']'])
            with
        | some (ns', []) => some ns'
        | _ => none) := by
      show (if renderNotesInner (n :: ns) ++ [']'] = [']'] then some []
        else match parseItemsAux (renderNotes (n :: ns)).length
            (renderNotesInner (n :: ns) ++ [']']) with
        | some (ns', []) => some ns'
        | _ => none) = _
      rw [if_neg hne]
    rw [hstep]
    have hfuel : (n :: ns).length ≤ (renderNotes (n :: ns)).length := by
      have h1 := renderNotesInner_length (n :: ns)
      show (n :: ns).length ≤ ('[' :: (renderNotesInner (n :: ns) ++ [']'])).length
      simp only [List.length_cons, List.length_append] at h1 ⊢
      omega
    have := parseItemsAux_render (n :: ns) (renderNotes (n :: ns)).length [] (by simp) hfuel
    rw [show renderNotesInner (n :: ns) ++ [']'] = renderNotesInner (n :: ns) ++ ']' :: [] from rfl,
      this]

theorem renderNotes_ne_empty (notes : List Note) : renderNotes notes ≠ "" := by
  intro h
  have : '[' :: (renderNotesInner notes ++ [']']) = [] := congrArg String.data h
  simp at this

theorem handleSaveNote_reject (s : AppState) (now : Nat)
    (h1 : jsTrim s.editTitle = "") (h2 : jsTrim s.editContent = "") :
    handleSaveNote s now = s := by
  simp [handleSaveNote, h1, h2]

theorem handleSaveNote_update (s : AppState) (now : Nat)
    (hmode : (truthy s.selectedId && !s.isCreating) = true)
    (hblank : ¬(jsTrim s.editTitle = "" ∧ jsTrim s.editContent = "")) :
    handleSaveNote s now =
      { s with
        notes := s.notes.map (fun n =>
          if s.selectedId = some n.id then
            updNote now (jsTrim s.editTitle) (jsTrim s.editContent) n
          else n)
        editTitle := "", editContent := "" } := by
  simp only [handleSaveNote, if_neg hblank, hmode, if_true]

theorem handleSaveNote_create (s : AppState) (now : Nat)
    (hmode : (truthy s.selectedId && !s.isCreating) = false)
    (hblank : ¬(jsTrim s.editTitle = "" ∧ jsTrim s.editContent = "")) :
    handleSaveNote s now =
      { s with
        notes := mkNote now s.editTitle s.editContent :: s.notes
        selectedId := some (natToString now)
        isCreating := false
        editTitle := "", editContent := "" } := by
  simp only [handleSaveNote, if_neg hblank, hmode, Bool.false_eq_true, if_false]

theorem applyEffect_of_truthy (s : AppState) (h : truthy s.selectedId = true)
    (hn : s.notes ≠ []) : applyEffect s = s := by
  unfold applyEffect
  cases hns : s.notes with
  | nil => exact absurd hns hn
  | cons a t => simp [h]

theorem applyEffect_of_empty (s : AppState) (h : s.notes = []) :
    applyEffect s =
      { s with selectedId := none, isCreating := false, editTitle := "", editContent := "" } := by
  obtain ⟨notes, sel, cr, et, ec⟩ := s
  simp only at h
  subst h
  rfl

theorem applyEffect_isCreating_of_false (s : AppState) (h : s.isCreating = false) :
    (applyEffect s).isCreating = false := by
  unfold applyEffect
  cases hns : s.notes with
  | nil => simp
  | cons a t => by_cases ht : truthy s.selectedId <;> simp [ht, h]

theorem addCall_notes (s : AppState) (t c : String) (now : Nat)
    (h : ¬(jsTrim t = "" ∧ jsTrim c = "")) :
    (addCall s t c now).notes = mkNote now t c :: s.notes := by
  have hnotes : (setBuffer (applyEffect (handleAddNote s)) t c).notes = s.notes := by
    show (applyEffect (handleAddNote s)).notes = s.notes
    rw [applyEffect_notes]
    rfl
  have hmode : (truthy (setBuffer (applyEffect (handleAddNote s)) t c).selectedId &&
      !(setBuffer (applyEffect (handleAddNote s)) t c).isCreating) = false := by
    cases hn : s.notes with
    | nil => simp [setBuffer, applyEffect, handleAddNote, hn, truthy]
    | cons a t' => simp [setBuffer, applyEffect, handleAddNote, hn, truthy]
  show (saveCmd (setBuffer (applyEffect (handleAddNote s)) t c) now).notes =
    mkNote now t c :: s.notes
  unfold saveCmd
  rw [applyEffect_notes, handleSaveNote_create _ now hmode h]
  rw [show (setBuffer (applyEffect (handleAddNote s)) t c).editTitle = t from rfl,
    show (setBuffer (applyEffect (handleAddNote s)) t c).editContent = c from rfl, hnotes]

theorem addSeq_ids (calls : List (String × String × Nat)) :
    ∀ s : AppState, (∀ cl ∈ calls, ¬(jsTrim cl.1 = "" ∧ jsTrim cl.2.1 = "")) →
      (calls.foldl (fun st cl => addCall st cl.1 cl.2.1 cl.2.2) s).notes.map (fun n => n.id) =
        (calls.map (fun cl => natToString cl.2.2)).reverse ++ s.notes.map (fun n => n.id) := by
  induction calls with
  | nil => intro s _; simp
  | cons cl rest ih =>
    intro s h
    rw [List.foldl_cons, ih _ (fun c hc => h c (List.mem_cons_of_mem _ hc)),
      addCall_notes s cl.1 cl.2.1 cl.2.2 (h cl (List.mem_cons_self _ _))]
    simp [mkNote]

theorem applyEffect_selectedId_cons (t : AppState) (m : Note) (ms : List Note)
    (h : t.notes = m :: ms) :
    (applyEffect t).selectedId = (if truthy t.selectedId then t.selectedId else some m.id) := by
  unfold applyEffect
  by_cases ht : truthy t.selectedId <;> simp [h, ht]

theorem stored_title_ok (t : String) :
    (if jsTrim t = "" then untitled else jsTrim t) ≠ "" ∧
    ((if jsTrim t = "" then untitled else jsTrim t) = untitled ∨
      jsTrim (if jsTrim t = "" then untitled else jsTrim t) =
        (if jsTrim t = "" then untitled else jsTrim t)) := by
  by_cases htt : jsTrim t = ""
  · rw [if_pos htt]
    exact ⟨by decide, Or.inl rfl⟩
  · rw [if_neg htt]
    exact ⟨htt, Or.inr (jsTrim_idem t)⟩

/-!  ## The claims  -/

/-- C1 (code_bug): the spec requires the startup load to fail soft —
for every persisted value it must return a collection and never raise,
yielding the empty collection when the key is absent or its value is
malformed.  The absent-key half holds, but the read at App.js lines
15-18 has no try/catch around `JSON.parse`: on the malformed stored
value consisting of a single opening brace the parse fails and the
exception propagates to the caller (`Except.error` in the model)
instead of producing the empty collection. -/
theorem load_malformed_value_raises :
    loadNotes (some ("\x7b")) = Except.error () ∧ loadNotes none = Except.ok [] :=
  ⟨rfl, rfl⟩

/-- C2 (counterexample): two add calls with non-blank input made at the
same clock value `Date.now() = 5` are both accepted (collection size
2), yet both notes receive the id `"5"`, so the ids are not pairwise
distinct — the code derives ids from the millisecond clock with no
freshness check. -/
theorem addSeq_same_clock_duplicate_ids :
    (addSeq [("a", "x", 5), ("b", "y", 5)]).notes.length = 2 ∧
    ¬ ((addSeq [("a", "x", 5), ("b", "y", 5)]).notes.map (fun n => n.id)).Nodup := by
  decide

/-- C2 (amended): for every sequence of add calls with non-blank input
starting from the empty collection, every call is accepted and the
collection size equals the number of calls; provided the clock values
observed at the accepted saves are pairwise distinct, the assigned ids
are pairwise distinct as well. -/
theorem addSeq_distinct_clock_unique_ids (calls : List (String × String × Nat))
    (hnb : ∀ cl ∈ calls, ¬(jsTrim cl.1 = "" ∧ jsTrim cl.2.1 = ""))
    (hts : (calls.map (fun cl => cl.2.2)).Nodup) :
    (addSeq calls).notes.length = calls.length ∧
    ((addSeq calls).notes.map (fun n => n.id)).Nodup := by
  have hids := addSeq_ids calls initState hnb
  have hids' : (addSeq calls).notes.map (fun n => n.id) =
      (calls.map (fun cl => natToString cl.2.2)).reverse := by
    rw [show addSeq calls =
        calls.foldl (fun st cl => addCall st cl.1 cl.2.1 cl.2.2) initState from rfl, hids]
    simp [initState]
  constructor
  · have hlen := congrArg List.length hids'
    simpa using hlen
  · rw [hids', List.nodup_reverse,
      show calls.map (fun cl => natToString cl.2.2) =
        (calls.map (fun cl => cl.2.2)).map natToString from by rw [List.map_map]; rfl]
    exact hts.map natToString_injective

/-- C2 (witness): two accepted adds at clock values 1 and 2 give a
collection of size two. -/
theorem addSeq_distinct_clock_unique_ids_witness :
    (addSeq [("a", "x", 1), ("b", "y", 2)]).notes.length = 2 :=
  (addSeq_distinct_clock_unique_ids [("a", "x", 1), ("b", "y", 2)]
    (by decide) (by decide)).1

/-- C3 (counterexample): deleting the non-selected note A while an edit
of the selected note B is in progress keeps the typed edit buffer and
leaves the component showing the edit form — the delete handler clears
only the creating flag (App.js line 101), not the edit buffer, so the
resulting view state is still Editing, contradicting the claim that
delete always discards an in-progress edit. -/
theorem delete_keeps_editing_counterexample :
    (deleteCmd editingTwoNotes ("1")).editTitle = "Groceries" ∧
    showsEditForm (deleteCmd editingTwoNotes ("1")) = true ∧
    (deleteCmd editingTwoNotes ("1")).isCreating = false := by
  decide

/-- C3 (amended): for every view state and every id, delete clears the
creating flag; the in-progress edit buffer is discarded only when the
deletion empties the collection (the cleanup effect of App.js lines
47-51), in which case the selection is also cleared and the edit form
is closed.  When notes remain, the edit buffer survives the delete. -/
theorem delete_cancels_creating (s : AppState) (idToDelete : String) :
    (deleteCmd s idToDelete).isCreating = false ∧
    ((deleteCmd s idToDelete).notes = [] →
      (deleteCmd s idToDelete).editTitle = "" ∧ (deleteCmd s idToDelete).editContent = "" ∧
      (deleteCmd s idToDelete).selectedId = none ∧
      showsEditForm (deleteCmd s idToDelete) = false) := by
  constructor
  · exact applyEffect_isCreating_of_false _ rfl
  · intro hempty
    have hhn : (handleDeleteNote s idToDelete).notes = [] := by
      rw [← applyEffect_notes (handleDeleteNote s idToDelete)]
      exact hempty
    have heq := applyEffect_of_empty _ hhn
    rw [show deleteCmd s idToDelete = applyEffect (handleDeleteNote s idToDelete) from rfl, heq]
    refine ⟨rfl, rfl, rfl, ?_⟩
    simp [showsEditForm, truthy]

/-- C3 (witness): deleting the only note while it is being edited
clears the creating flag and discards the edit buffer. -/
theorem delete_cancels_creating_witness :
    (deleteCmd editingLastNote ("1")).isCreating = false ∧
    (deleteCmd editingLastNote ("1")).editTitle = "" :=
  ⟨(delete_cancels_creating editingLastNote ("1")).1,
   ((delete_cancels_creating editingLastNote ("1")).2 (by decide)).1⟩

/-- C4: a save whose trimmed title and trimmed content are both empty
is rejected as a no-op — the handler returns the state unchanged, so
no note is created or mutated and the collection before equals the
collection after (App.js line 109). -/
theorem blank_save_collection_unchanged (s : AppState) (now : Nat)
    (h1 : jsTrim s.editTitle = "") (h2 : jsTrim s.editContent = "") :
    (saveCmd s now).notes = s.notes ∧ handleSaveNote s now = s := by
  refine ⟨?_, handleSaveNote_reject s now h1 h2⟩
  show (applyEffect (handleSaveNote s now)).notes = s.notes
  rw [applyEffect_notes, handleSaveNote_reject s now h1 h2]

/-- C4 (witness): saving a whitespace-only title with empty content
leaves the collection unchanged. -/
theorem blank_save_collection_unchanged_witness :
    (saveCmd blankBufferState 3).notes = blankBufferState.notes :=
  (blank_save_collection_unchanged blankBufferState 3 (by decide) (by decide)).1

/-- C5: when no note is selected-for-update (creating mode or no
truthy selection) and the input is not all blank, save constructs one
note whose title is the trimmed title, or the placeholder when that is
empty, prepends it to the front of the collection leaving the existing
notes unchanged in order, and selects the new note's id (App.js lines
125-139). -/
theorem save_creating_prepends_note (s : AppState) (now : Nat)
    (hmode : (truthy s.selectedId && !s.isCreating) = false)
    (hblank : ¬(jsTrim s.editTitle = "" ∧ jsTrim s.editContent = "")) :
    (saveCmd s now).notes = mkNote now s.editTitle s.editContent :: s.notes ∧
    (mkNote now s.editTitle s.editContent).title =
      (if jsTrim s.editTitle = "" then untitled else jsTrim s.editTitle) ∧
    (saveCmd s now).selectedId = some (mkNote now s.editTitle s.editContent).id ∧
    (mkNote now s.editTitle s.editContent).id = natToString now := by
  have hs := handleSaveNote_create s now hmode hblank
  have heff : applyEffect (handleSaveNote s now) = handleSaveNote s now := by
    apply applyEffect_of_truthy
    · rw [hs]
      show truthy (some (natToString now)) = true
      simp [truthy, natToString_ne_empty now]
    · rw [hs]
      simp
  refine ⟨?_, rfl, ?_, rfl⟩
  · show (applyEffect (handleSaveNote s now)).notes = _
    rw [heff, hs]
  · show (applyEffect (handleSaveNote s now)).selectedId = _
    rw [heff, hs]
    rfl

/-- C5 (witness): saving a draft from creating mode prepends the new
note. -/
theorem save_creating_prepends_note_witness :
    (saveCmd creatingState 7).notes =
      mkNote 7 creatingState.editTitle creatingState.editContent :: creatingState.notes :=
  (save_creating_prepends_note creatingState 7 (by decide) (by decide)).1

/-- C6: save while a note is selected and not creating is an in-place
update — if the selected id is absent from the collection the
collection is unchanged; the length is preserved; and at every
position the note is unchanged when its id differs from the selected
id, and otherwise is replaced by the same note with
placeholder-defaulted trimmed title, trimmed content and refreshed
lastEdited.  No note moves position, so the updated note is not moved
to the front (App.js lines 112-124). -/
theorem save_editing_updates_in_place (s : AppState) (now : Nat) (x : String)
    (hsel : s.selectedId = some x) (hx : ¬ x = "") (hcr : s.isCreating = false)
    (hblank : ¬(jsTrim s.editTitle = "" ∧ jsTrim s.editContent = "")) :
    ((∀ n ∈ s.notes, n.id ≠ x) → (saveCmd s now).notes = s.notes) ∧
    (saveCmd s now).notes.length = s.notes.length ∧
    (∀ i : Nat, (saveCmd s now).notes[i]? =
      (s.notes[i]?).map (fun n =>
        if n.id = x then updNote now (jsTrim s.editTitle) (jsTrim s.editContent) n else n)) := by
  have hmode : (truthy s.selectedId && !s.isCreating) = true := by
    rw [hsel, hcr]
    simp [truthy, hx]
  have hnotes : (saveCmd s now).notes =
      s.notes.map (fun n =>
        if n.id = x then updNote now (jsTrim s.editTitle) (jsTrim s.editContent) n else n) := by
    show (applyEffect (handleSaveNote s now)).notes = _
    rw [applyEffect_notes, handleSaveNote_update s now hmode hblank]
    show s.notes.map _ = s.notes.map _
    apply List.map_congr_left
    intro a _
    rw [hsel]
    by_cases hid : a.id = x
    · rw [if_pos (by rw [hid]), if_pos hid]
    · rw [if_neg (by intro hcon; exact hid (Option.some.inj hcon).symm), if_neg hid]
  refine ⟨?_, ?_, ?_⟩
  · intro habs
    rw [hnotes, List.map_congr_left (fun a ha => if_neg (habs a ha)), List.map_id']
  · rw [hnotes, List.length_map]
  · intro i
    rw [hnotes]
    exact List.getElem?_map ..

/-- C6 (witness): an in-place update of the selected note preserves the
collection length. -/
theorem save_editing_updates_in_place_witness :
    (saveCmd editingTwoNotes 9).notes.length = editingTwoNotes.notes.length :=
  (save_editing_updates_in_place editingTwoNotes 9 ("2") rfl (by decide) rfl (by decide)).2.1

/-- C7: the sidebar filter returns the full collection in order for
the empty query; for a non-empty query it returns a subsequence of the
collection (relative order preserved) containing exactly the notes
whose lowercased title or content contains the lowercased query as a
substring (App.js lines 55-61). -/
theorem filteredNotes_spec (notes : List Note) (q : String) :
    filteredNotes notes ("") = notes ∧
    (q ≠ "" →
      (filteredNotes notes q).Sublist notes ∧
      (∀ n, n ∈ filteredNotes notes q ↔ n ∈ notes ∧ matchesQuery q n = true)) := by
  refine ⟨by simp [filteredNotes], fun hq => ⟨?_, ?_⟩⟩
  · simp only [filteredNotes, if_neg hq]
    exact List.filter_sublist notes
  · intro n
    simp [filteredNotes, hq, List.mem_filter]

/-- C7 (witness): filtering two notes with a query matching neither
yields a subsequence (here the empty one). -/
theorem filteredNotes_spec_witness :
    (filteredNotes searchNotes ("zz")).Sublist searchNotes :=
  ((filteredNotes_spec searchNotes ("zz")).2 (by decide)).1

/-- C8: with a live selected id, deleting the selected id removes
exactly the notes carrying that id and re-selects the first
(most-recent) remaining note, or clears the selection when none
remain; deleting any other id leaves the selection unchanged (App.js
lines 95-102 with the effect of lines 43-52). -/
theorem delete_selection_behavior (s : AppState) (x other : String)
    (hsel : s.selectedId = some x) (hx : ¬ x = "")
    (hlive : x ∈ s.notes.map (fun n => n.id)) (hother : other ≠ x) :
    (deleteCmd s x).notes = s.notes.filter (fun n => n.id != x) ∧
    (deleteCmd s x).selectedId =
      ((s.notes.filter (fun n => n.id != x)).head?).map (fun n => n.id) ∧
    (deleteCmd s other).selectedId = s.selectedId := by
  refine ⟨?_, ?_, ?_⟩
  · show (applyEffect (handleDeleteNote s x)).notes = _
    rw [applyEffect_notes]
    rfl
  · cases hu : s.notes.filter (fun n => n.id != x) with
    | nil =>
      have hempty : (handleDeleteNote s x).notes = [] := by
        show s.notes.filter (fun n => n.id != x) = []
        exact hu
      rw [show deleteCmd s x = applyEffect (handleDeleteNote s x) from rfl,
        applyEffect_of_empty _ hempty]
      simp
    | cons m ms =>
      have htn : (handleDeleteNote s x).notes = m :: ms := by
        show s.notes.filter (fun n => n.id != x) = m :: ms
        exact hu
      have htsel : (handleDeleteNote s x).selectedId = some m.id := by
        simp [handleDeleteNote, hsel, hu]
      rw [show (deleteCmd s x).selectedId = (applyEffect (handleDeleteNote s x)).selectedId
          from rfl, applyEffect_selectedId_cons _ m ms htn, htsel]
      simp
  · have hselne : (handleDeleteNote s other).selectedId = s.selectedId := by
      simp [handleDeleteNote, hsel, show ¬ x = other from fun hh => hother hh.symm]
    have hlive' : ∃ m ∈ s.notes, m.id = x := by
      simpa using hlive
    obtain ⟨nx, hnx, hnxid⟩ := hlive'
    have hmem : nx ∈ s.notes.filter (fun n => n.id != other) := by
      rw [List.mem_filter]
      exact ⟨hnx, by rw [hnxid]; exact bne_iff_ne.mpr (Ne.symm hother)⟩
    obtain ⟨m, ms, hms⟩ :=
      List.exists_cons_of_ne_nil (List.ne_nil_of_mem hmem)
    have htn : (handleDeleteNote s other).notes = m :: ms := by
      show s.notes.filter (fun n => n.id != other) = m :: ms
      exact hms
    rw [show (deleteCmd s other).selectedId = (applyEffect (handleDeleteNote s other)).selectedId
        from rfl, applyEffect_selectedId_cons _ m ms htn, hselne, hsel,
      if_pos (by simp [truthy, hx])]

/-- C8 (witness): with notes B (newest, selected) and A, deleting B
re-selects A, the most recent remaining note. -/
theorem delete_selection_behavior_witness :
    (deleteCmd viewingTwoNotes ("2")).selectedId =
      ((viewingTwoNotes.notes.filter (fun n => n.id != "2")).head?).map (fun n => n.id) :=
  (delete_selection_behavior viewingTwoNotes ("2") ("9") rfl (by decide) (by decide)
    (by decide)).2.1

/-- C9: persisting the collection to the durable key and loading it
back reproduces the same collection, element for element in the same
order: the serialization round-trip holds for every collection of
notes (App.js lines 15-18 and 28-30). -/
theorem load_persist_roundtrip (notes : List Note) :
    loadNotes (persistNotes notes) = Except.ok notes := by
  rw [show loadNotes (persistNotes notes) =
      (if renderNotes notes = "" then Except.ok [] else
        match parseNotes (renderNotes notes) with
        | some ns => Except.ok ns
        | none => Except.error ()) from rfl,
    if_neg (renderNotes_ne_empty notes), parseNotes_render]

/-- C10: in every collection reachable from the empty collection via
the save command (create or update) and the delete command, every
note's title is non-empty — it is either the literal placeholder
`"(Untitled)"` or a non-blank string fixed by trimming (the trimmed
title the save stored). -/
theorem reachable_titles_nonblank (notes : List Note) (h : ReachableNotes notes) :
    ∀ n ∈ notes, n.title ≠ "" ∧ (n.title = untitled ∨ jsTrim n.title = n.title) := by
  induction h with
  | nil => intro n hn; simp at hn
  | save s now _ ih =>
    intro n hn
    by_cases hb : jsTrim s.editTitle = "" ∧ jsTrim s.editContent = ""
    · rw [handleSaveNote_reject s now hb.1 hb.2] at hn
      exact ih n hn
    · by_cases hm : (truthy s.selectedId && !s.isCreating) = true
      · rw [handleSaveNote_update s now hm hb] at hn
        have hn' : n ∈ s.notes.map (fun m =>
            if s.selectedId = some m.id then
              updNote now (jsTrim s.editTitle) (jsTrim s.editContent) m
            else m) := hn
        rcases List.mem_map.mp hn' with ⟨m, hmem, hrep⟩
        by_cases hid : s.selectedId = some m.id
        · rw [if_pos hid] at hrep
          rw [← hrep]
          exact stored_title_ok s.editTitle
        · rw [if_neg hid] at hrep
          rw [← hrep]
          exact ih m hmem
      · have hm' : (truthy s.selectedId && !s.isCreating) = false := by
          revert hm
          cases truthy s.selectedId && !s.isCreating <;> simp
        rw [handleSaveNote_create s now hm' hb] at hn
        have hn' : n ∈ mkNote now s.editTitle s.editContent :: s.notes := hn
        rcases List.mem_cons.mp hn' with h1 | hmem
        · rw [h1]
          exact stored_title_ok s.editTitle
        · exact ih n hmem
  | del s idToDelete _ ih =>
    intro n hn
    have hn' : n ∈ s.notes.filter (fun m => m.id != idToDelete) := hn
    exact ih n (List.mem_filter.mp hn').1

/-- C10 (witness): the note stored by a save from creating mode with
title draft `"hi"` has a non-empty title, through the reachability
theorem. -/
theorem reachable_titles_nonblank_witness :
    (mkNote 7 ("hi") ("")).title ≠ "" :=
  (reachable_titles_nonblank (handleSaveNote creatingFromEmpty 7).notes
    (ReachableNotes.save creatingFromEmpty 7 ReachableNotes.nil)
    (mkNote 7 ("hi") ("")) (by decide)).1
